import Mathlib

/-!
Verification of the release script `scripts/bump-version.py`.

Python strings are modelled as lists of characters (`PyStr`); machine-level
details (Unicode categories, big-int internals) do not arise in this script,
whose data are ASCII version strings and exit codes.
-/

namespace BumpVersion

/-- A Python string, modelled as the list of its characters. -/
abbrev PyStr := List Char

/-- The bump class accepted by the script (the `argparse` choices
`patch`, `minor`, `major`); every other argument is rejected by `argparse`
before `main`'s body runs. -/
inductive BumpType
  | patch
  | minor
  | major
  deriving DecidableEq

/-- Helper for Python `str.split(sep)` with a one-character separator:
returns the first field together with the list of the remaining fields. -/
def splitOnCharAux (sep : Char) : PyStr → PyStr × List PyStr
  | [] => ([], [])
  | c :: rest =>
    let r := splitOnCharAux sep rest
    if c = sep then ([], r.1 :: r.2) else (c :: r.1, r.2)

/-- Python `str.split(sep)` for a one-character separator: the list of
fields between occurrences of `sep` (it is never empty, like in Python). -/
def splitOnChar (sep : Char) (s : PyStr) : List PyStr :=
  (splitOnCharAux sep s).1 :: (splitOnCharAux sep s).2

/-- Python `current_version.split("-")[0]`: everything before the first
hyphen (the whole string when there is none). -/
def prehyphen (s : PyStr) : PyStr := (splitOnCharAux '-' s).1

/-- Numeric value of a list of decimal digit characters (most significant
first), as accumulated by Python `int()`. -/
def digitsVal (s : PyStr) : Nat :=
  s.foldl (fun a c => a * 10 + (c.toNat - 48)) 0

/-- Python `int(s)` restricted to an unsigned digit string: `none` when the
string is empty or contains a non-digit (Python raises `ValueError` there). -/
def digitsVal? (s : PyStr) : Option Nat :=
  if s = [] then none
  else if s.all Char.isDigit then some (digitsVal s) else none

/-- Python `int(s)` on a version component.  A component produced by
splitting `split("-")[0]` on `.` can never contain `-`, so only an optional
leading `+` sign is modelled besides plain digit strings; all other strings
make `int` raise `ValueError`, modelled as `none`. -/
def pyInt? (s : PyStr) : Option Nat :=
  match s with
  | [] => none
  | c :: rest => if c = '+' then digitsVal? rest else digitsVal? (c :: rest)

/-- The parsing step of `calculate_new_version`:
`major, minor, patch = map(int, current_version.split("-")[0].split("."))`.
`none` models the `ValueError` raised when a component is not an integer or
when the number of components is not exactly three. -/
def parseTriple? (s : PyStr) : Option (Nat × Nat × Nat) :=
  match (splitOnChar '.' (prehyphen s)).map pyInt? with
  | [some a, some b, some c] => some (a, b, c)
  | _ => none

/-- The arithmetic step of `calculate_new_version`: which component is
incremented and which lower components reset, per bump class. -/
def bumpTriple (t : Nat × Nat × Nat) : BumpType → Nat × Nat × Nat
  | .patch => (t.1, t.2.1, t.2.2 + 1)
  | .minor => (t.1, t.2.1 + 1, 0)
  | .major => (t.1 + 1, 0, 0)

/-- Decimal digit characters of `n`, most significant first, with explicit
fuel (`fuel > n` suffices); models Python `str()` of a non-negative int. -/
def natDigitsAux : Nat → Nat → List Char
  | 0, _ => []
  | fuel + 1, n =>
    if n < 10 then [Nat.digitChar n]
    else natDigitsAux fuel (n / 10) ++ [Nat.digitChar (n % 10)]

/-- Decimal representation of `n`, as Python `str(n)` produces it. -/
def natDigits (n : Nat) : PyStr := natDigitsAux (n + 1) n

/-- The formatting step of `calculate_new_version`:
`f"{major}.{minor}.{patch}"`. -/
def formatVersion (t : Nat × Nat × Nat) : PyStr :=
  natDigits t.1 ++ '.' :: (natDigits t.2.1 ++ '.' :: natDigits t.2.2)

/-- `calculate_new_version` from `scripts/bump-version.py`: parse the
pre-hyphen part as three integers, bump per the bump class, re-serialize.
`none` models the uncaught `ValueError` on a malformed version. -/
def calculate_new_version (current : PyStr) (bump : BumpType) : Option PyStr :=
  match parseTriple? current with
  | none => none
  | some t => some (formatVersion (bumpTriple t bump))

/-- Everything of `s` strictly before the last occurrence of `c`
(`s` unchanged semantics are irrelevant when `c ∉ s`; callers guard on
membership).  Models the greedy capture of `(.*)"`: all characters up to
the last `"` of the line. -/
def takeUntilLast (c : Char) (s : PyStr) : PyStr :=
  ((s.reverse.dropWhile (fun x => x != c)).drop 1).reverse

/-- The literal line head `version = "` that both regexes of the script
require at the start of a line. -/
def verMarker : PyStr := "version = \"".toList

/-- One line against the pattern `version = "(.*)"`: the line must start
with `version = "` and contain a further `"`; the greedy capture is
everything between the opening quote and the last quote of the line. -/
def lineVersionMatch? (line : PyStr) : Option PyStr :=
  if verMarker.isPrefixOf line then
    let rest := line.drop verMarker.length
    if rest.contains '"' then some (takeUntilLast '"' rest) else none
  else none

/-- `get_current_version` from the script:
`re.search(r'^version = "(.*)"', content, re.MULTILINE)` — the first line of
the file matching the version pattern yields its capture; `none` models the
`ValueError` raised when no line matches.  The content is passed as its list
of lines (the `^`-with-`re.MULTILINE` anchor points). -/
def get_current_version (lines : List PyStr) : Option PyStr :=
  lines.findSome? lineVersionMatch?

/-- `update_cargo_toml` from the script:
`re.sub(f'^version = "{re.escape(current)}"', f'version = "{new}"', content, count=1)`.
The pattern is compiled WITHOUT `re.MULTILINE`, so `^` anchors at the start
of the whole file only: the substitution fires exactly when the file begins
with `version = "<current>"`, and otherwise returns the content unchanged
(the file is then rewritten with identical bytes). -/
def update_cargo_toml (content currentV newV : PyStr) : PyStr :=
  let pat := verMarker ++ currentV ++ ['"']
  if pat.isPrefixOf content then
    verMarker ++ newV ++ ['"'] ++ content.drop pat.length
  else content

/-- The manifest exhibiting C2's divergence: a typical `Cargo.toml` whose
unique version line is not the first line of the file. -/
def c2Manifest : PyStr := "[package]\nversion = \"1.2.3\"\n".toList


/-- Outcome of one `subprocess.run(..., check=True)` invocation:
the process ran and exited 0 (`ok`, with captured stdout when the call
captures output), the process ran and exited non-zero (`fail`, raising
`CalledProcessError` carrying the captured stderr), or the executable was
absent (`noExe`, raising `FileNotFoundError` — the process never ran). -/
inductive CmdOutcome
  | ok (stdout : PyStr)
  | fail (stderr : PyStr)
  | noExe
  deriving DecidableEq

/-- `True` exactly for an outcome in which the process ran and exited 0. -/
def isOk : CmdOutcome → Bool
  | .ok _ => true
  | _ => false

/-- How one run of the script terminates: `sys.exit(n)` / falling off the
end of `main` (`code`), or an uncaught Python exception (`uncaught` — the
interpreter prints a traceback and exits with status 1). -/
inductive Exit
  | code (n : Nat)
  | uncaught
  deriving DecidableEq

/-- Whether the interpreter's exit status is non-zero (an uncaught
exception yields status 1). -/
def exitNonzero : Exit → Bool
  | .code n => n != 0
  | .uncaught => true

/-- The version-control commands of the final commit/tag/push sequence,
in the order `main` issues them. -/
inductive VcsCmd
  | revParse
  | add
  | commit
  | tagAnnotated
  | tagLightweight
  | pushBranch
  | pushTag
  deriving DecidableEq

/-- The error report printed when the final sequence fails: the
`except subprocess.CalledProcessError` arm (which surfaces the failing
tool's error text) or the distinct `except FileNotFoundError` arm
(`'git' command not found`). -/
inductive GitErr
  | processFailed (cmd : VcsCmd) (errText : PyStr)
  | exeNotFound (cmd : VcsCmd)
  deriving DecidableEq

/-- The three manual follow-up commands printed when the second
confirmation is declined: stage+commit, tag (annotated via
`-F RELEASE_NOTES.md` or lightweight), push branch and tag. -/
inductive ManualCmd
  | stageCommit (newV : PyStr)
  | tagAnnotated (newV : PyStr)
  | tagLightweight (newV : PyStr)
  | push (newV : PyStr)
  deriving DecidableEq

/-- The environment one run of `main` observes: the CLI bump class, the
file system (`Cargo.toml`, `RELEASE_NOTES.md`), the two interactive
answers, and the outcome of every external command in program order. -/
structure Env where
  bump : BumpType
  manifest : Option PyStr
  answer1 : PyStr
  cargoBuild : CmdOutcome
  gitDiff : CmdOutcome
  releaseNotes : Option PyStr
  answer2 : PyStr
  gitRevParse : CmdOutcome
  gitAdd : CmdOutcome
  gitCommit : CmdOutcome
  gitTag : CmdOutcome
  gitPushBranch : CmdOutcome
  gitPushTag : CmdOutcome
  deriving DecidableEq

/-- The observable result of one run of `main`: the exit, whether
`write_text` was performed on `Cargo.toml` and the file's final content,
whether `cargo build` ran (the only way the lock file is touched), whether
the lock step printed its warning, the version-control commands of the
final sequence that were executed, the manual follow-up commands printed,
and the error reported by the final sequence. -/
structure RunResult where
  exit : Exit
  wroteManifest : Bool
  manifestFinal : Option PyStr
  ranCargoBuild : Bool
  buildWarning : Bool
  vcsRun : List VcsCmd
  manualCmds : List ManualCmd
  gitError : Option GitErr
  deriving DecidableEq

/-- Python `str.lower()` on the prompt replies (ASCII case folding; no
character outside ASCII lowercases to the ASCII `y` the script compares
against). -/
def pyLower (s : PyStr) : PyStr := s.map Char.toLower

/-- The string `"y"` the script compares the lowered replies against. -/
def yStr : PyStr := ['y']

/-- Python whitespace stripped by `str.strip()`. -/
def isPyWs (c : Char) : Bool :=
  c == ' ' || c == '\t' || c == '\n' || c == '\r' || c == '\x0b' || c == '\x0c'

/-- Python `str.strip()`. -/
def pyStrip (s : PyStr) : PyStr :=
  ((s.dropWhile isPyWs).reverse.dropWhile isPyWs).reverse

/-- `release_notes_content`: `""` when `RELEASE_NOTES.md` is absent, its
stripped text when present. -/
def notesContent : Option PyStr → PyStr
  | some t => pyStrip t
  | none => []

/-- What `update_cargo_lock` does with the outcome of
`run_command(["cargo", "build", "--quiet"])`: success continues silently; a
`CalledProcessError` is caught and turned into a warning, and flow
continues; a `FileNotFoundError` is caught nowhere and propagates. -/
inductive LockStep
  | continuedOk
  | continuedWithWarning (errText : PyStr)
  | crashed
  deriving DecidableEq

/-- `update_cargo_lock` from the script (its only `except` arm is
`subprocess.CalledProcessError`). -/
def update_cargo_lock : CmdOutcome → LockStep
  | .ok _ => .continuedOk
  | .fail e => .continuedWithWarning e
  | .noExe => .crashed

/-- The commands of the final commit/tag/push sequence paired with their
outcomes, in program order; the tag command is annotated exactly when the
release-notes content is non-empty. -/
def gitSeq (env : Env) (annotated : Bool) : List (VcsCmd × CmdOutcome) :=
  [(VcsCmd.revParse, env.gitRevParse), (VcsCmd.add, env.gitAdd),
   (VcsCmd.commit, env.gitCommit),
   (if annotated then VcsCmd.tagAnnotated else VcsCmd.tagLightweight, env.gitTag),
   (VcsCmd.pushBranch, env.gitPushBranch), (VcsCmd.pushTag, env.gitPushTag)]

/-- Run the final sequence inside its `try`: commands execute in order
until the first `CalledProcessError` (the failing command did run) or
`FileNotFoundError` (the command never ran); either exception aborts the
rest of the sequence and is caught by the matching `except` arm. -/
def runVcsSeq : List (VcsCmd × CmdOutcome) → List VcsCmd × Option GitErr
  | [] => ([], none)
  | (c, CmdOutcome.ok _) :: rest =>
    ((c :: (runVcsSeq rest).1), (runVcsSeq rest).2)
  | (c, CmdOutcome.fail t) :: _ => ([c], some (GitErr.processFailed c t))
  | (c, CmdOutcome.noExe) :: _ => ([], some (GitErr.exeNotFound c))

/-- The commit/tag/push phase, entered after the second confirmation:
on any exception the matching `except` arm prints its report and calls
`sys.exit(1)`; otherwise `main` prints the success banner and returns. -/
def gitPhase (env : Env) (content1 newV notes : PyStr) (bw : Bool) : RunResult :=
  { exit := match (runVcsSeq (gitSeq env (!notes.isEmpty))).2 with
      | none => Exit.code 0
      | some _ => Exit.code 1,
    wroteManifest := true, manifestFinal := some content1, ranCargoBuild := true,
    buildWarning := bw, vcsRun := (runVcsSeq (gitSeq env (!notes.isEmpty))).1,
    manualCmds := [], gitError := (runVcsSeq (gitSeq env (!notes.isEmpty))).2 }

/-- The second confirmation: declining prints the three manual follow-up
commands and exits 0 with the file mutation left in place; confirming
enters the commit/tag/push phase. -/
def confirm2Phase (env : Env) (content1 newV : PyStr) (bw : Bool) : RunResult :=
  if pyLower env.answer2 = yStr then
    gitPhase env content1 newV (notesContent env.releaseNotes) bw
  else
    { exit := Exit.code 0, wroteManifest := true, manifestFinal := some content1,
      ranCargoBuild := true, buildWarning := bw, vcsRun := [],
      manualCmds := [ManualCmd.stageCommit newV,
        if (notesContent env.releaseNotes) = [] then ManualCmd.tagLightweight newV
        else ManualCmd.tagAnnotated newV,
        ManualCmd.push newV],
      gitError := none }

/-- Step 3 of `main`: `git diff` inside `try/except CalledProcessError` —
success and failure both continue; a missing `git` executable raises
`FileNotFoundError`, which nothing catches here. -/
def diffPhase (env : Env) (content1 newV : PyStr) (bw : Bool) : RunResult :=
  match env.gitDiff with
  | .noExe =>
    { exit := Exit.uncaught, wroteManifest := true, manifestFinal := some content1,
      ranCargoBuild := true, buildWarning := bw, vcsRun := [], manualCmds := [],
      gitError := none }
  | _ => confirm2Phase env content1 newV bw

/-- Step 2 of `main`: `update_cargo_lock()`.  A build failure is caught
(warning, flow continues); a missing `cargo` executable raises
`FileNotFoundError`, which no handler catches, so the run dies there with
the manifest already written. -/
def buildPhase (env : Env) (content1 newV : PyStr) : RunResult :=
  match env.cargoBuild with
  | .noExe =>
    { exit := Exit.uncaught, wroteManifest := true, manifestFinal := some content1,
      ranCargoBuild := false, buildWarning := false, vcsRun := [], manualCmds := [],
      gitError := none }
  | .ok _ => diffPhase env content1 newV false
  | .fail _ => diffPhase env content1 newV true

/-- `main` from `scripts/bump-version.py` as a function of the observed
environment.  Missing manifest: exit 1.  No version line: the raised
`ValueError` is caught and turned into exit 1.  Components that are not
integers: `calculate_new_version` raises outside the `try`, so the run
dies uncaught.  First confirmation declined: exit 0 before any mutation.
Otherwise `Cargo.toml` is rewritten and the later phases run. -/
def main_model (env : Env) : RunResult :=
  match env.manifest with
  | none =>
    { exit := Exit.code 1, wroteManifest := false, manifestFinal := none,
      ranCargoBuild := false, buildWarning := false, vcsRun := [], manualCmds := [],
      gitError := none }
  | some content =>
    match get_current_version (splitOnChar '\n' content) with
    | none =>
      { exit := Exit.code 1, wroteManifest := false, manifestFinal := some content,
        ranCargoBuild := false, buildWarning := false, vcsRun := [], manualCmds := [],
        gitError := none }
    | some cur =>
      match calculate_new_version cur env.bump with
      | none =>
        { exit := Exit.uncaught, wroteManifest := false, manifestFinal := some content,
          ranCargoBuild := false, buildWarning := false, vcsRun := [], manualCmds := [],
          gitError := none }
      | some newV =>
        if pyLower env.answer1 = yStr then
          buildPhase env (update_cargo_toml content cur newV) newV
        else
          { exit := Exit.code 0, wroteManifest := false, manifestFinal := some content,
            ranCargoBuild := false, buildWarning := false, vcsRun := [], manualCmds := [],
            gitError := none }

/-- A manifest whose version line is the first line of the file, used by
the concrete witnesses. -/
def sampleManifest : PyStr := "version = \"1.2.3\"\nname = \"fresh\"\n".toList

/-- A fully cooperative environment — manifest present, both prompts
answered `y`, every external command succeeding; concrete test
environments override single fields of it. -/
def baseEnv : Env :=
  { bump := BumpType.patch,
    manifest := some sampleManifest,
    answer1 := ['y'],
    cargoBuild := CmdOutcome.ok [],
    gitDiff := CmdOutcome.ok [],
    releaseNotes := none,
    answer2 := ['y'],
    gitRevParse := CmdOutcome.ok ['m'],
    gitAdd := CmdOutcome.ok [],
    gitCommit := CmdOutcome.ok [],
    gitTag := CmdOutcome.ok [],
    gitPushBranch := CmdOutcome.ok [],
    gitPushTag := CmdOutcome.ok [] }

/-- Environment with no `Cargo.toml`. -/
def noManifestEnv : Env := { baseEnv with manifest := none }

/-- Environment whose manifest has no version line. -/
def noVersionEnv : Env := { baseEnv with manifest := some ("[package]\n".toList) }

/-- Environment whose manifest carries a non-integer version. -/
def badVersionEnv : Env := { baseEnv with manifest := some ("version = \"abc\"\n".toList) }

/-- Environment declining the first confirmation. -/
def declined1Env : Env := { baseEnv with answer1 := ['n'] }

/-- Environment declining the second confirmation. -/
def declined2Env : Env := { baseEnv with answer2 := ['n'] }

/-- Environment in which `cargo build` runs and fails. -/
def buildFailEnv : Env := { baseEnv with cargoBuild := CmdOutcome.fail ("boom".toList) }

/-- Environment in which the `cargo` executable is absent. -/
def cargoMissingEnv : Env := { baseEnv with cargoBuild := CmdOutcome.noExe }

/-- Environment in which `git commit` fails. -/
def gitFailEnv : Env := { baseEnv with gitCommit := CmdOutcome.fail ("boom".toList) }

/-- Environment in which the `git` executable is absent at the branch
lookup of the final sequence. -/
def gitMissingEnv : Env := { baseEnv with gitRevParse := CmdOutcome.noExe }

theorem splitOnCharAux_of_not_mem {sep : Char} {s : PyStr} (h : sep ∉ s) :
    splitOnCharAux sep s = (s, []) := by
  induction s with
  | nil => rfl
  | cons c rest ih =>
    have hc : ¬ c = sep := fun e => h (by simp [e])
    have hr : sep ∉ rest := fun hm => h (List.mem_cons_of_mem _ hm)
    simp [splitOnCharAux, hc, ih hr]

theorem splitOnCharAux_append {sep : Char} {x : PyStr} (y : PyStr) (hx : sep ∉ x) :
    splitOnCharAux sep (x ++ sep :: y) =
      (x, (splitOnCharAux sep y).1 :: (splitOnCharAux sep y).2) := by
  induction x with
  | nil => simp [splitOnCharAux]
  | cons c rest ih =>
    have hc : ¬ c = sep := fun e => hx (by simp [e])
    have hr : sep ∉ rest := fun hm => hx (List.mem_cons_of_mem _ hm)
    simp [splitOnCharAux, hc, ih hr]

theorem splitOnChar_three {a b c : PyStr} (ha : '.' ∉ a) (hb : '.' ∉ b) (hc : '.' ∉ c) :
    splitOnChar '.' (a ++ '.' :: (b ++ '.' :: c)) = [a, b, c] := by
  simp [splitOnChar, splitOnCharAux_append _ ha, splitOnCharAux_append _ hb,
    splitOnCharAux_of_not_mem hc]

theorem prehyphen_of_not_mem {s : PyStr} (h : '-' ∉ s) : prehyphen s = s := by
  simp [prehyphen, splitOnCharAux_of_not_mem h]

theorem prehyphen_append {x : PyStr} (y : PyStr) (hx : '-' ∉ x) :
    prehyphen (x ++ '-' :: y) = x := by
  simp [prehyphen, splitOnCharAux_append y hx]

theorem digitChar_isDigit {d : Nat} (h : d < 10) : (Nat.digitChar d).isDigit = true := by
  interval_cases d <;> decide

theorem digitChar_sub48 {d : Nat} (h : d < 10) : (Nat.digitChar d).toNat - 48 = d := by
  interval_cases d <;> decide

theorem digitsVal_append_singleton (s : PyStr) (c : Char) :
    digitsVal (s ++ [c]) = digitsVal s * 10 + (c.toNat - 48) := by
  simp [digitsVal, List.foldl_append]

theorem natDigitsAux_spec :
    ∀ fuel n, n < fuel →
      natDigitsAux fuel n ≠ [] ∧
      (∀ c ∈ natDigitsAux fuel n, c.isDigit = true) ∧
      digitsVal (natDigitsAux fuel n) = n := by
  intro fuel
  induction fuel with
  | zero => intro n h; omega
  | succ fuel ih =>
    intro n h
    by_cases h10 : n < 10
    · refine ⟨by simp [natDigitsAux, h10], ?_, ?_⟩
      · intro c hc
        simp [natDigitsAux, h10] at hc
        subst hc
        exact digitChar_isDigit h10
      · simp [natDigitsAux, h10, digitsVal]
        exact digitChar_sub48 h10
    · have hlt : n / 10 < n := Nat.div_lt_self (by omega) (by norm_num)
      have hrec : n / 10 < fuel := by omega
      obtain ⟨hne, hdig, hval⟩ := ih (n / 10) hrec
      refine ⟨by simp [natDigitsAux, h10], ?_, ?_⟩
      · intro c hc
        simp [natDigitsAux, h10] at hc
        rcases hc with hc | hc
        · exact hdig c hc
        · subst hc
          exact digitChar_isDigit (Nat.mod_lt _ (by norm_num))
      · have : natDigitsAux (fuel + 1) n =
            natDigitsAux fuel (n / 10) ++ [Nat.digitChar (n % 10)] := by
          simp [natDigitsAux, h10]
        rw [this, digitsVal_append_singleton, hval,
          digitChar_sub48 (Nat.mod_lt _ (by norm_num))]
        omega

theorem natDigits_ne_nil (n : Nat) : natDigits n ≠ [] :=
  (natDigitsAux_spec (n + 1) n (Nat.lt_succ_self n)).1

theorem natDigits_all_digit (n : Nat) : ∀ c ∈ natDigits n, c.isDigit = true :=
  (natDigitsAux_spec (n + 1) n (Nat.lt_succ_self n)).2.1

theorem digitsVal_natDigits (n : Nat) : digitsVal (natDigits n) = n :=
  (natDigitsAux_spec (n + 1) n (Nat.lt_succ_self n)).2.2

theorem digitsVal?_natDigits (n : Nat) : digitsVal? (natDigits n) = some n := by
  have h1 := natDigits_ne_nil n
  have h2 : (natDigits n).all Char.isDigit = true :=
    List.all_eq_true.2 (natDigits_all_digit n)
  simp [digitsVal?, h1, h2, digitsVal_natDigits]

theorem pyInt?_natDigits (n : Nat) : pyInt? (natDigits n) = some n := by
  cases hnd : natDigits n with
  | nil => exact absurd hnd (natDigits_ne_nil n)
  | cons c rest =>
    have hc : c.isDigit = true :=
      natDigits_all_digit n c (by rw [hnd]; exact List.mem_cons_self c rest)
    have hplus : ¬ c = '+' := by
      intro e
      subst e
      exact absurd hc (by decide)
    simp only [pyInt?, if_neg hplus]
    rw [← hnd]
    exact digitsVal?_natDigits n

theorem natDigits_not_mem_dot (n : Nat) : '.' ∉ natDigits n := fun h =>
  absurd (natDigits_all_digit n _ h) (by decide)

theorem natDigits_not_mem_hyphen (n : Nat) : '-' ∉ natDigits n := fun h =>
  absurd (natDigits_all_digit n _ h) (by decide)

theorem formatVersion_not_mem_hyphen : ∀ t : Nat × Nat × Nat, '-' ∉ formatVersion t := by
  rintro ⟨a, b, c⟩ h
  simp only [formatVersion] at h
  rcases List.mem_append.1 h with h1 | h2
  · exact natDigits_not_mem_hyphen a h1
  · rcases List.mem_cons.1 h2 with h3 | h4
    · exact absurd h3 (by decide)
    · rcases List.mem_append.1 h4 with h5 | h6
      · exact natDigits_not_mem_hyphen b h5
      · rcases List.mem_cons.1 h6 with h7 | h8
        · exact absurd h7 (by decide)
        · exact natDigits_not_mem_hyphen c h8

theorem parseTriple?_formatVersion : ∀ t : Nat × Nat × Nat,
    parseTriple? (formatVersion t) = some t := by
  rintro ⟨a, b, c⟩
  have hsplit : splitOnChar '.' (formatVersion (a, b, c)) =
      [natDigits a, natDigits b, natDigits c] :=
    splitOnChar_three (natDigits_not_mem_dot a) (natDigits_not_mem_dot b)
      (natDigits_not_mem_dot c)
  simp only [parseTriple?,
    prehyphen_of_not_mem (formatVersion_not_mem_hyphen (a, b, c)), hsplit,
    List.map_cons, List.map_nil, pyInt?_natDigits]

theorem calculate_new_version_formatVersion (t : Nat × Nat × Nat) (bump : BumpType) :
    calculate_new_version (formatVersion t) bump =
      some (formatVersion (bumpTriple t bump)) := by
  simp [calculate_new_version, parseTriple?_formatVersion]

/-- C1: for every valid version string `"X.Y.Z"` (three non-negative
integers), `calculate_new_version` returns `"X.Y.(Z+1)"` for `patch`,
`"X.(Y+1).0"` for `minor` and `"(X+1).0.0"` for `major`; in particular
bumping `"2.9.9"` with `major` yields `"3.0.0"` and bumping `"0.1.0"` with
`minor` yields `"0.2.0"`. -/
theorem calculate_new_version_bump_rules :
    (∀ a b c : Nat,
      calculate_new_version (formatVersion (a, b, c)) BumpType.patch =
        some (formatVersion (a, b, c + 1)) ∧
      calculate_new_version (formatVersion (a, b, c)) BumpType.minor =
        some (formatVersion (a, b + 1, 0)) ∧
      calculate_new_version (formatVersion (a, b, c)) BumpType.major =
        some (formatVersion (a + 1, 0, 0))) ∧
    calculate_new_version ("2.9.9".toList) BumpType.major = some ("3.0.0".toList) ∧
    calculate_new_version ("0.1.0".toList) BumpType.minor = some ("0.2.0".toList) := by
  refine ⟨fun a b c => ⟨?_, ?_, ?_⟩, by decide, by decide⟩ <;>
    simp [calculate_new_version_formatVersion, bumpTriple]

/-- C3: a pre-release suffix after a `-` separator is stripped before the
arithmetic and is absent from the result; in particular bumping
`"1.2.3-rc1"` with `patch` yields `"1.2.4"`. -/
theorem calculate_new_version_strips_suffix :
    (∀ (a b c : Nat) (tail : PyStr) (bump : BumpType),
      calculate_new_version (formatVersion (a, b, c) ++ '-' :: tail) bump =
        some (formatVersion (bumpTriple (a, b, c) bump)) ∧
      '-' ∉ formatVersion (bumpTriple (a, b, c) bump)) ∧
    calculate_new_version ("1.2.3-rc1".toList) BumpType.patch = some ("1.2.4".toList) := by
  refine ⟨fun a b c tail bump => ⟨?_, formatVersion_not_mem_hyphen _⟩, by decide⟩
  have h : parseTriple? (formatVersion (a, b, c) ++ '-' :: tail) =
      parseTriple? (formatVersion (a, b, c)) := by
    simp only [parseTriple?,
      prehyphen_append tail (formatVersion_not_mem_hyphen (a, b, c)),
      prehyphen_of_not_mem (formatVersion_not_mem_hyphen (a, b, c))]
  rw [calculate_new_version, h, ← calculate_new_version]
  exact calculate_new_version_formatVersion (a, b, c) bump

/-- C9: whenever the pre-hyphen part of the input parses as three
non-negative integers, the output of `calculate_new_version` is the
serialization of the bumped triple, it re-parses to exactly that triple,
and it carries no pre-release suffix — so it is a valid input for a
subsequent bump. -/
theorem calculate_new_version_roundtrip (s : PyStr) (t : Nat × Nat × Nat)
    (bump : BumpType) (h : parseTriple? s = some t) :
    calculate_new_version s bump = some (formatVersion (bumpTriple t bump)) ∧
    parseTriple? (formatVersion (bumpTriple t bump)) = some (bumpTriple t bump) ∧
    '-' ∉ formatVersion (bumpTriple t bump) :=
  ⟨by simp [calculate_new_version, h], parseTriple?_formatVersion _,
    formatVersion_not_mem_hyphen _⟩

/-- Witness for C9 at the concrete input `"1.2.3-rc1"` with bump `patch`. -/
theorem calculate_new_version_roundtrip_witness :
    parseTriple? ("1.2.3-rc1".toList) = some (1, 2, 3) ∧
    (calculate_new_version ("1.2.3-rc1".toList) BumpType.patch =
        some (formatVersion (bumpTriple (1, 2, 3) BumpType.patch)) ∧
      parseTriple? (formatVersion (bumpTriple (1, 2, 3) BumpType.patch)) =
        some (bumpTriple (1, 2, 3) BumpType.patch) ∧
      '-' ∉ formatVersion (bumpTriple (1, 2, 3) BumpType.patch)) :=
  ⟨by decide,
    calculate_new_version_roundtrip ("1.2.3-rc1".toList) (1, 2, 3) BumpType.patch
      (by decide)⟩

/-- C2 fails on the code: on a manifest with exactly one line matching the
version pattern, placed (as in every real `Cargo.toml`) after the
`[package]` header, `get_current_version` finds `1.2.3` (its regex uses
`re.MULTILINE`) yet `update_cargo_toml` — whose `^version = "..."` pattern
lacks `re.MULTILINE` and therefore anchors at the start of the file only —
replaces nothing: the file is written back byte-for-byte identical and the
matching line is not rewritten to the new version. -/
theorem update_cargo_toml_misses_nonleading_line :
    get_current_version (splitOnChar '\n' c2Manifest) = some ("1.2.3".toList) ∧
    ((splitOnChar '\n' c2Manifest).filter
        (fun l => (lineVersionMatch? l).isSome)).length = 1 ∧
    update_cargo_toml c2Manifest ("1.2.3".toList) ("1.2.4".toList) = c2Manifest ∧
    update_cargo_toml c2Manifest ("1.2.3".toList) ("1.2.4".toList) ≠
      "[package]\nversion = \"1.2.4\"\n".toList :=
  ⟨by decide, by decide, by decide, by decide⟩


theorem main_model_reach (env : Env) (m cur newV : PyStr)
    (h1 : env.manifest = some m)
    (h2 : get_current_version (splitOnChar '\n' m) = some cur)
    (h3 : calculate_new_version cur env.bump = some newV)
    (h4 : pyLower env.answer1 = yStr) :
    main_model env = buildPhase env (update_cargo_toml m cur newV) newV := by
  simp [main_model, h1, h2, h3, h4]

theorem main_model_confirm2 (env : Env) (m cur newV : PyStr)
    (h1 : env.manifest = some m)
    (h2 : get_current_version (splitOnChar '\n' m) = some cur)
    (h3 : calculate_new_version cur env.bump = some newV)
    (h4 : pyLower env.answer1 = yStr)
    (h5 : env.cargoBuild ≠ CmdOutcome.noExe)
    (h6 : env.gitDiff ≠ CmdOutcome.noExe) :
    ∃ bw, main_model env =
      confirm2Phase env (update_cargo_toml m cur newV) newV bw := by
  rw [main_model_reach env m cur newV h1 h2 h3 h4]
  cases hcb : env.cargoBuild with
  | noExe => exact absurd hcb h5
  | ok s =>
    refine ⟨false, ?_⟩
    cases hgd : env.gitDiff with
    | noExe => exact absurd hgd h6
    | ok u => simp [buildPhase, hcb, diffPhase, hgd]
    | fail u => simp [buildPhase, hcb, diffPhase, hgd]
  | fail s =>
    refine ⟨true, ?_⟩
    cases hgd : env.gitDiff with
    | noExe => exact absurd hgd h6
    | ok u => simp [buildPhase, hcb, diffPhase, hgd]
    | fail u => simp [buildPhase, hcb, diffPhase, hgd]

theorem confirm2Phase_buildWarning (env : Env) (c v : PyStr) (bw : Bool) :
    (confirm2Phase env c v bw).buildWarning = bw := by
  simp only [confirm2Phase]
  split
  · rfl
  · rfl

theorem diffPhase_buildWarning (env : Env) (c v : PyStr) (bw : Bool) :
    (diffPhase env c v bw).buildWarning = bw := by
  cases h : env.gitDiff <;> simp [diffPhase, h, confirm2Phase_buildWarning]

theorem runVcsSeq_fail (pre : List (VcsCmd × CmdOutcome)) (c : VcsCmd) (t : PyStr)
    (post : List (VcsCmd × CmdOutcome)) (hpre : ∀ p ∈ pre, isOk p.2 = true) :
    runVcsSeq (pre ++ (c, CmdOutcome.fail t) :: post) =
      (pre.map Prod.fst ++ [c], some (GitErr.processFailed c t)) := by
  induction pre with
  | nil => rfl
  | cons p rest ih =>
    obtain ⟨c0, o0⟩ := p
    have ho : isOk o0 = true := hpre (c0, o0) (List.mem_cons_self _ _)
    cases o0 with
    | ok s => simp [runVcsSeq, ih fun q hq => hpre q (List.mem_cons_of_mem _ hq)]
    | fail s => simp [isOk] at ho
    | noExe => simp [isOk] at ho

theorem runVcsSeq_noExe (pre : List (VcsCmd × CmdOutcome)) (c : VcsCmd)
    (post : List (VcsCmd × CmdOutcome)) (hpre : ∀ p ∈ pre, isOk p.2 = true) :
    runVcsSeq (pre ++ (c, CmdOutcome.noExe) :: post) =
      (pre.map Prod.fst, some (GitErr.exeNotFound c)) := by
  induction pre with
  | nil => rfl
  | cons p rest ih =>
    obtain ⟨c0, o0⟩ := p
    have ho : isOk o0 = true := hpre (c0, o0) (List.mem_cons_self _ _)
    cases o0 with
    | ok s => simp [runVcsSeq, ih fun q hq => hpre q (List.mem_cons_of_mem _ hq)]
    | fail s => simp [isOk] at ho
    | noExe => simp [isOk] at ho

/-- C4: a missing manifest, a manifest with no line matching the version
pattern, or version components that are not valid integers each terminate
the run with a non-zero exit status (the last through the uncaught
`ValueError`, interpreter status 1) before any mutation: `Cargo.toml` is
never written, `cargo build` never runs, and no version-control command of
the final sequence is issued. -/
theorem main_model_fatal_before_mutation (env : Env) :
    (env.manifest = none →
      exitNonzero (main_model env).exit = true ∧
      (main_model env).wroteManifest = false ∧
      (main_model env).ranCargoBuild = false ∧
      (main_model env).vcsRun = [] ∧
      (main_model env).manifestFinal = none) ∧
    (∀ m, env.manifest = some m →
      get_current_version (splitOnChar '\n' m) = none →
      exitNonzero (main_model env).exit = true ∧
      (main_model env).wroteManifest = false ∧
      (main_model env).ranCargoBuild = false ∧
      (main_model env).vcsRun = [] ∧
      (main_model env).manifestFinal = some m) ∧
    (∀ m cur, env.manifest = some m →
      get_current_version (splitOnChar '\n' m) = some cur →
      calculate_new_version cur env.bump = none →
      exitNonzero (main_model env).exit = true ∧
      (main_model env).wroteManifest = false ∧
      (main_model env).ranCargoBuild = false ∧
      (main_model env).vcsRun = [] ∧
      (main_model env).manifestFinal = some m) := by
  refine ⟨fun h1 => ?_, fun m h1 h2 => ?_, fun m cur h1 h2 h3 => ?_⟩ <;>
    simp [main_model, exitNonzero, *]

/-- Witness for C4 at three concrete environments: manifest absent, no
version line, and non-integer version components. -/
theorem main_model_fatal_before_mutation_witness :
    (exitNonzero (main_model noManifestEnv).exit = true ∧
      (main_model noManifestEnv).wroteManifest = false ∧
      (main_model noManifestEnv).ranCargoBuild = false ∧
      (main_model noManifestEnv).vcsRun = [] ∧
      (main_model noManifestEnv).manifestFinal = none) ∧
    (exitNonzero (main_model noVersionEnv).exit = true ∧
      (main_model noVersionEnv).wroteManifest = false ∧
      (main_model noVersionEnv).ranCargoBuild = false ∧
      (main_model noVersionEnv).vcsRun = [] ∧
      (main_model noVersionEnv).manifestFinal = some ("[package]\n".toList)) ∧
    (exitNonzero (main_model badVersionEnv).exit = true ∧
      (main_model badVersionEnv).wroteManifest = false ∧
      (main_model badVersionEnv).ranCargoBuild = false ∧
      (main_model badVersionEnv).vcsRun = [] ∧
      (main_model badVersionEnv).manifestFinal = some ("version = \"abc\"\n".toList)) :=
  ⟨(main_model_fatal_before_mutation noManifestEnv).1 rfl,
   (main_model_fatal_before_mutation noVersionEnv).2.1 ("[package]\n".toList)
     rfl (by decide),
   (main_model_fatal_before_mutation badVersionEnv).2.2 ("version = \"abc\"\n".toList)
     ("abc".toList) rfl (by decide) (by decide)⟩

/-- C5: when the reply to the first confirmation, lowered, is anything but
`y`, the run exits 0 with no side effect: `Cargo.toml` is not written and
keeps its content, `cargo build` (the only lock-file mutation) never runs,
and no command of the final sequence is issued. -/
theorem main_model_decline_first (env : Env) (m cur newV : PyStr)
    (h1 : env.manifest = some m)
    (h2 : get_current_version (splitOnChar '\n' m) = some cur)
    (h3 : calculate_new_version cur env.bump = some newV)
    (h4 : pyLower env.answer1 ≠ yStr) :
    (main_model env).exit = Exit.code 0 ∧
    (main_model env).wroteManifest = false ∧
    (main_model env).manifestFinal = env.manifest ∧
    (main_model env).ranCargoBuild = false ∧
    (main_model env).vcsRun = [] ∧
    (main_model env).manualCmds = [] := by
  simp [main_model, h1, h2, h3, h4]

/-- Witness for C5 at a concrete environment replying `n` to the first
prompt. -/
theorem main_model_decline_first_witness :
    pyLower declined1Env.answer1 ≠ yStr ∧
    ((main_model declined1Env).exit = Exit.code 0 ∧
      (main_model declined1Env).wroteManifest = false ∧
      (main_model declined1Env).manifestFinal = declined1Env.manifest ∧
      (main_model declined1Env).ranCargoBuild = false ∧
      (main_model declined1Env).vcsRun = [] ∧
      (main_model declined1Env).manualCmds = []) :=
  ⟨by decide,
    main_model_decline_first declined1Env sampleManifest ("1.2.3".toList)
      ("1.2.4".toList) rfl (by decide) (by decide) (by decide)⟩

/-- C6: declining the second confirmation exits 0, runs no commit, tag or
push command and reports no git error, leaves the already-performed
manifest write and lock regeneration in place, and prints the three manual
follow-up commands — stage+commit, tag (annotated exactly when the
release-notes content is non-empty, lightweight otherwise) and push. -/
theorem main_model_decline_second (env : Env) (m cur newV : PyStr)
    (h1 : env.manifest = some m)
    (h2 : get_current_version (splitOnChar '\n' m) = some cur)
    (h3 : calculate_new_version cur env.bump = some newV)
    (h4 : pyLower env.answer1 = yStr)
    (h5 : env.cargoBuild ≠ CmdOutcome.noExe)
    (h6 : env.gitDiff ≠ CmdOutcome.noExe)
    (h7 : pyLower env.answer2 ≠ yStr) :
    (main_model env).exit = Exit.code 0 ∧
    (main_model env).vcsRun = [] ∧
    (main_model env).gitError = none ∧
    (main_model env).wroteManifest = true ∧
    (main_model env).ranCargoBuild = true ∧
    (main_model env).manifestFinal = some (update_cargo_toml m cur newV) ∧
    (main_model env).manualCmds =
      [ManualCmd.stageCommit newV,
       if notesContent env.releaseNotes = [] then ManualCmd.tagLightweight newV
       else ManualCmd.tagAnnotated newV,
       ManualCmd.push newV] := by
  obtain ⟨bw, hm⟩ := main_model_confirm2 env m cur newV h1 h2 h3 h4 h5 h6
  rw [hm]
  simp [confirm2Phase, h7]

/-- Witness for C6 at a concrete environment replying `n` to the second
prompt. -/
theorem main_model_decline_second_witness :
    pyLower declined2Env.answer2 ≠ yStr ∧
    ((main_model declined2Env).exit = Exit.code 0 ∧
      (main_model declined2Env).vcsRun = [] ∧
      (main_model declined2Env).gitError = none ∧
      (main_model declined2Env).wroteManifest = true ∧
      (main_model declined2Env).ranCargoBuild = true ∧
      (main_model declined2Env).manifestFinal =
        some (update_cargo_toml sampleManifest ("1.2.3".toList) ("1.2.4".toList)) ∧
      (main_model declined2Env).manualCmds =
        [ManualCmd.stageCommit ("1.2.4".toList),
         if notesContent declined2Env.releaseNotes = [] then
           ManualCmd.tagLightweight ("1.2.4".toList)
         else ManualCmd.tagAnnotated ("1.2.4".toList),
         ManualCmd.push ("1.2.4".toList)]) :=
  ⟨by decide,
    main_model_decline_second declined2Env sampleManifest ("1.2.3".toList)
      ("1.2.4".toList) rfl (by decide) (by decide) (by decide) (by decide)
      (by decide) (by decide)⟩

/-- C7: when `cargo build` runs and fails, `update_cargo_lock` catches the
`CalledProcessError` and turns it into a warning, and the run continues
into the following steps (the diff phase and everything after it) instead
of aborting; the surfaced warning is visible in the final result. -/
theorem main_model_build_failure_continues (env : Env) (m cur newV e : PyStr)
    (h1 : env.manifest = some m)
    (h2 : get_current_version (splitOnChar '\n' m) = some cur)
    (h3 : calculate_new_version cur env.bump = some newV)
    (h4 : pyLower env.answer1 = yStr)
    (hb : env.cargoBuild = CmdOutcome.fail e) :
    update_cargo_lock env.cargoBuild = LockStep.continuedWithWarning e ∧
    main_model env = diffPhase env (update_cargo_toml m cur newV) newV true ∧
    (main_model env).buildWarning = true := by
  have hm := main_model_reach env m cur newV h1 h2 h3 h4
  have hd : main_model env = diffPhase env (update_cargo_toml m cur newV) newV true := by
    rw [hm]
    simp [buildPhase, hb]
  exact ⟨by rw [hb]; rfl, hd, by rw [hd, diffPhase_buildWarning]⟩

/-- Witness for C7 at a concrete environment whose `cargo build` fails. -/
theorem main_model_build_failure_continues_witness :
    buildFailEnv.cargoBuild = CmdOutcome.fail ("boom".toList) ∧
    (update_cargo_lock buildFailEnv.cargoBuild =
        LockStep.continuedWithWarning ("boom".toList) ∧
      main_model buildFailEnv =
        diffPhase buildFailEnv
          (update_cargo_toml sampleManifest ("1.2.3".toList) ("1.2.4".toList))
          ("1.2.4".toList) true ∧
      (main_model buildFailEnv).buildWarning = true) :=
  ⟨rfl,
    main_model_build_failure_continues buildFailEnv sampleManifest ("1.2.3".toList)
      ("1.2.4".toList) ("boom".toList) rfl (by decide) (by decide) (by decide) rfl⟩

/-- C8: once the second confirmation is accepted, the first command of the
branch-lookup/commit/tag/push sequence that raises aborts the sequence with
exit code 1: a command that ran and failed is reported through the
`CalledProcessError` arm carrying the tool's error text, and a missing
executable through the distinct `FileNotFoundError` arm; no later command
of the sequence runs. -/
theorem main_model_git_failure_aborts (env : Env) (m cur newV : PyStr)
    (h1 : env.manifest = some m)
    (h2 : get_current_version (splitOnChar '\n' m) = some cur)
    (h3 : calculate_new_version cur env.bump = some newV)
    (h4 : pyLower env.answer1 = yStr)
    (h5 : env.cargoBuild ≠ CmdOutcome.noExe)
    (h6 : env.gitDiff ≠ CmdOutcome.noExe)
    (h7 : pyLower env.answer2 = yStr) :
    (∀ pre c t post,
      gitSeq env (!(notesContent env.releaseNotes).isEmpty) =
          pre ++ (c, CmdOutcome.fail t) :: post →
      (∀ p ∈ pre, isOk p.2 = true) →
      (main_model env).exit = Exit.code 1 ∧
      (main_model env).gitError = some (GitErr.processFailed c t) ∧
      (main_model env).vcsRun = pre.map Prod.fst ++ [c]) ∧
    (∀ pre c post,
      gitSeq env (!(notesContent env.releaseNotes).isEmpty) =
          pre ++ (c, CmdOutcome.noExe) :: post →
      (∀ p ∈ pre, isOk p.2 = true) →
      (main_model env).exit = Exit.code 1 ∧
      (main_model env).gitError = some (GitErr.exeNotFound c) ∧
      (main_model env).vcsRun = pre.map Prod.fst) := by
  obtain ⟨bw, hm⟩ := main_model_confirm2 env m cur newV h1 h2 h3 h4 h5 h6
  rw [hm]
  constructor
  · intro pre c t post hsplit hpre
    simp only [confirm2Phase, if_pos h7, gitPhase, hsplit,
      runVcsSeq_fail pre c t post hpre]
    exact ⟨trivial, trivial, trivial⟩
  · intro pre c post hsplit hpre
    simp only [confirm2Phase, if_pos h7, gitPhase, hsplit,
      runVcsSeq_noExe pre c post hpre]
    exact ⟨trivial, trivial, trivial⟩

/-- Witness for C8 at two concrete environments: a failing `git commit`,
and a missing `git` executable at the branch lookup. -/
theorem main_model_git_failure_aborts_witness :
    ((main_model gitFailEnv).exit = Exit.code 1 ∧
      (main_model gitFailEnv).gitError =
        some (GitErr.processFailed VcsCmd.commit ("boom".toList)) ∧
      (main_model gitFailEnv).vcsRun =
        [VcsCmd.revParse, VcsCmd.add, VcsCmd.commit]) ∧
    ((main_model gitMissingEnv).exit = Exit.code 1 ∧
      (main_model gitMissingEnv).gitError = some (GitErr.exeNotFound VcsCmd.revParse) ∧
      (main_model gitMissingEnv).vcsRun = []) := by
  constructor
  · exact (main_model_git_failure_aborts gitFailEnv sampleManifest ("1.2.3".toList)
      ("1.2.4".toList) rfl (by decide) (by decide) (by decide) (by decide) (by decide)
      (by decide)).1
      [(VcsCmd.revParse, CmdOutcome.ok ['m']), (VcsCmd.add, CmdOutcome.ok [])]
      VcsCmd.commit ("boom".toList)
      [(VcsCmd.tagLightweight, CmdOutcome.ok []), (VcsCmd.pushBranch, CmdOutcome.ok []),
       (VcsCmd.pushTag, CmdOutcome.ok [])]
      (by decide) (by decide)
  · exact (main_model_git_failure_aborts gitMissingEnv sampleManifest ("1.2.3".toList)
      ("1.2.4".toList) rfl (by decide) (by decide) (by decide) (by decide) (by decide)
      (by decide)).2
      [] VcsCmd.revParse
      [(VcsCmd.add, CmdOutcome.ok []), (VcsCmd.commit, CmdOutcome.ok []),
       (VcsCmd.tagLightweight, CmdOutcome.ok []), (VcsCmd.pushBranch, CmdOutcome.ok []),
       (VcsCmd.pushTag, CmdOutcome.ok [])]
      (by decide) (by decide)

/-- C10: the advisory lock step catches only a build process that started
and exited with failure; when the `cargo` executable is absent, the
`FileNotFoundError` is caught nowhere, so the run terminates abnormally
(uncaught exception) after `Cargo.toml` has already been written — no
warning is surfaced and nothing after the lock step executes. -/
theorem main_model_missing_cargo_crashes (env : Env) (m cur newV : PyStr)
    (h1 : env.manifest = some m)
    (h2 : get_current_version (splitOnChar '\n' m) = some cur)
    (h3 : calculate_new_version cur env.bump = some newV)
    (h4 : pyLower env.answer1 = yStr)
    (hb : env.cargoBuild = CmdOutcome.noExe) :
    (∀ t, update_cargo_lock (CmdOutcome.fail t) = LockStep.continuedWithWarning t) ∧
    update_cargo_lock env.cargoBuild = LockStep.crashed ∧
    (main_model env).exit = Exit.uncaught ∧
    (main_model env).wroteManifest = true ∧
    (main_model env).manifestFinal = some (update_cargo_toml m cur newV) ∧
    (main_model env).buildWarning = false ∧
    (main_model env).vcsRun = [] ∧
    (main_model env).manualCmds = [] := by
  have hm := main_model_reach env m cur newV h1 h2 h3 h4
  rw [hm]
  refine ⟨fun t => rfl, by rw [hb]; rfl, ?_, ?_, ?_, ?_, ?_, ?_⟩ <;> simp [buildPhase, hb]

/-- Witness for C10 at a concrete environment with no `cargo` executable. -/
theorem main_model_missing_cargo_crashes_witness :
    cargoMissingEnv.cargoBuild = CmdOutcome.noExe ∧
    update_cargo_lock (CmdOutcome.fail ("boom".toList)) =
      LockStep.continuedWithWarning ("boom".toList) ∧
    (update_cargo_lock cargoMissingEnv.cargoBuild = LockStep.crashed ∧
      (main_model cargoMissingEnv).exit = Exit.uncaught ∧
      (main_model cargoMissingEnv).wroteManifest = true ∧
      (main_model cargoMissingEnv).manifestFinal =
        some (update_cargo_toml sampleManifest ("1.2.3".toList) ("1.2.4".toList)) ∧
      (main_model cargoMissingEnv).buildWarning = false ∧
      (main_model cargoMissingEnv).vcsRun = [] ∧
      (main_model cargoMissingEnv).manualCmds = []) :=
  ⟨rfl,
    (main_model_missing_cargo_crashes cargoMissingEnv sampleManifest ("1.2.3".toList)
      ("1.2.4".toList) rfl (by decide) (by decide) (by decide) rfl).1 ("boom".toList),
    (main_model_missing_cargo_crashes cargoMissingEnv sampleManifest ("1.2.3".toList)
      ("1.2.4".toList) rfl (by decide) (by decide) (by decide) rfl).2⟩

end BumpVersion
